import Mathlib

/-!
Verification of the ROS 2 porting-heuristics scanner
(`src/ros2-porting-heuristics.py`), shallowly embedded in Lean 4.

Lines of scanned files are modelled as `List Char` (the raw bytes of a line
with the trailing newline stripped; none of the byte patterns involved can
span the trailing newline).  Each line-scanning plugin class of the source
becomes a namespace holding its compiled patterns, its mutable state (an
explicit state value), its `line_cb` state-transition function and its
`finish` function, translated clause by clause from the Python methods.
-/

set_option autoImplicit false

namespace RosPort

/-- `divide_round_up(n, d) = (n + (d - 1)) // d` from the source. -/
def divide_round_up (n d : Nat) : Nat :=
  (n + (d - 1)) / d

/-- Does `p` occur at the very start of `s`?  (Helper for substring search.) -/
def listStarts : List Char → List Char → Bool
  | [], _ => true
  | _ :: _, [] => false
  | p :: ps, c :: cs => (p == c) && listStarts ps cs

/-- `re.search` of a plain-text pattern `p` over a line `s`:
does `p` occur as a contiguous substring of `s`? -/
def hasSub (p : List Char) : List Char → Bool
  | [] => p.isEmpty
  | c :: cs => listStarts p (c :: cs) || hasSub p cs

/-- `re.search` of a pattern `p1.*p2` over a single line (no newline inside):
some occurrence of `p1` is followed, anywhere later on the line, by `p2`. -/
def hasSubSeq (p1 p2 : List Char) : List Char → Bool
  | [] => p1.isEmpty && p2.isEmpty
  | c :: cs =>
    (listStarts p1 (c :: cs) && hasSub p2 (List.drop p1.length (c :: cs)))
      || hasSubSeq p1 p2 cs

/-- `re.search` of a pattern `p$` over a line: `p` occurs ending at the end of
the line (for `re.search`, `$` also matches just before a trailing newline,
so on stripped lines this is an end-of-line match). -/
def endsWithPat (p s : List Char) : Bool :=
  listStarts p.reverse s.reverse

/-- ASCII lowering of a line, modelling `re.IGNORECASE` on byte patterns. -/
def lowerLine (s : List Char) : List Char :=
  s.map Char.toLower

/-- `class File`: a classified source file.  `lines` is the code-line count
reported by the external line counter; `content` is the sequence of raw lines
streamed through the plugins (the two are independent in the source: `lines`
comes from pygount, `content` from re-reading the file). -/
structure SrcFile where
  lines : Nat
  content : List (List Char)
deriving DecidableEq

namespace RosCPPFileLinePlugin

def roscpp_using_re : List Char := "using namespace ros".data
def roscpp_namespace_re : List Char := "ros::".data

/-- `line_cb`: state is the `rosfile` flag. -/
def line_cb (rosfile : Bool) (line : List Char) : Bool :=
  if rosfile then rosfile
  else if hasSub roscpp_using_re line then true
  else if hasSub roscpp_namespace_re line then true
  else rosfile

/-- Stream a file's lines through a fresh plugin instance. -/
def scan (content : List (List Char)) : Bool :=
  content.foldl line_cb false

/-- `finish`. -/
def finish (rosfile : Bool) (f : SrcFile) : Nat :=
  if !rosfile then 0
  else divide_round_up f.lines 1000

end RosCPPFileLinePlugin

/-- State of `RosCPPUsingTFLinePlugin`: its two `__slots__` flags. -/
structure TFState where
  uses_tf : Bool
  uses_tf2_ros : Bool
deriving DecidableEq

namespace RosCPPUsingTFLinePlugin

def tf_using_re : List Char := "tf::".data
def tf2_using_re : List Char := "tf2_ros::".data

/-- `line_cb`: checks `tf::` first and returns on a match, so a line holding
both patterns records only `uses_tf`. -/
def line_cb (st : TFState) (line : List Char) : TFState :=
  if st.uses_tf && st.uses_tf2_ros then st
  else if hasSub tf_using_re line then { st with uses_tf := true }
  else if hasSub tf2_using_re line then { st with uses_tf2_ros := true }
  else st

/-- Stream a file's lines through a fresh plugin instance. -/
def scan (content : List (List Char)) : TFState :=
  content.foldl line_cb ⟨false, false⟩

/-- `finish`. -/
def finish (st : TFState) (_f : SrcFile) : Nat :=
  if !st.uses_tf then 0
  else if st.uses_tf2_ros then 0
  else 2

end RosCPPUsingTFLinePlugin

namespace RosCPPUsingDynamicReconfigurePlugin

def dynamic_reconfigure_re : List Char := "dynamic_reconfigure::".data

/-- `line_cb`: state is the `uses_dynamic_reconfigure` flag. -/
def line_cb (uses : Bool) (line : List Char) : Bool :=
  if uses then uses
  else if hasSub dynamic_reconfigure_re line then true
  else uses

def scan (content : List (List Char)) : Bool :=
  content.foldl line_cb false

/-- `finish`. -/
def finish (uses : Bool) (_f : SrcFile) : Nat :=
  if !uses then 0
  else 2

end RosCPPUsingDynamicReconfigurePlugin

namespace RosCPPActionServerPlugin

/-- The regex `actionlib::.*Server` with `re.IGNORECASE`, split into its two
literal parts (lowered; the line is lowered before matching). -/
def action_server_re_head : List Char := "actionlib::".data
def action_server_re_tail : List Char := "server".data

/-- `line_cb`: state is the `uses_action_server` flag. -/
def line_cb (uses : Bool) (line : List Char) : Bool :=
  if uses then uses
  else if hasSubSeq action_server_re_head action_server_re_tail (lowerLine line) then true
  else uses

def scan (content : List (List Char)) : Bool :=
  content.foldl line_cb false

/-- `finish`. -/
def finish (uses : Bool) (_f : SrcFile) : Nat :=
  if !uses then 0
  else 2

end RosCPPActionServerPlugin

namespace RosPyFileLinePlugin

def rospy_re : List Char := "rospy".data

def line_cb (rosfile : Bool) (line : List Char) : Bool :=
  if rosfile then rosfile
  else if hasSub rospy_re line then true
  else rosfile

def scan (content : List (List Char)) : Bool :=
  content.foldl line_cb false

/-- `finish`: Python files are weighted per 500 lines. -/
def finish (rosfile : Bool) (f : SrcFile) : Nat :=
  if !rosfile then 0
  else divide_round_up f.lines 500

end RosPyFileLinePlugin

namespace RosPyUsingTFLinePlugin

def tf_import_re : List Char := "import tf".data
def tf_conversions_import_re : List Char := "from tf_conversions import".data

/-- `line_cb`: `import tf$` is end-anchored, the conversions pattern is a
plain substring. -/
def line_cb (uses_tf : Bool) (line : List Char) : Bool :=
  if uses_tf then uses_tf
  else if endsWithPat tf_import_re line then true
  else if hasSub tf_conversions_import_re line then true
  else uses_tf

def scan (content : List (List Char)) : Bool :=
  content.foldl line_cb false

def finish (uses_tf : Bool) (_f : SrcFile) : Nat :=
  if !uses_tf then 0
  else 2

end RosPyUsingTFLinePlugin

namespace RosPyActionServerLinePlugin

/-- The regex `actionlib.*Server` with `re.IGNORECASE`, split into its two
literal parts (lowered). -/
def action_server_re_head : List Char := "actionlib".data
def action_server_re_tail : List Char := "server".data

def line_cb (uses : Bool) (line : List Char) : Bool :=
  if uses then uses
  else if hasSubSeq action_server_re_head action_server_re_tail (lowerLine line) then true
  else uses

def scan (content : List (List Char)) : Bool :=
  content.foldl line_cb false

def finish (uses : Bool) (_f : SrcFile) : Nat :=
  if !uses then 0
  else 2

end RosPyActionServerLinePlugin

namespace RosLaunchTestLinePlugin

/-- The regex `<test` with `re.IGNORECASE` (lowered literal). -/
def launch_test_re : List Char := "<test".data

def line_cb (uses_rostest : Bool) (line : List Char) : Bool :=
  if uses_rostest then uses_rostest
  else if hasSub launch_test_re (lowerLine line) then true
  else uses_rostest

def scan (content : List (List Char)) : Bool :=
  content.foldl line_cb false

def finish (uses_rostest : Bool) (_f : SrcFile) : Nat :=
  if !uses_rostest then 0
  else 1

end RosLaunchTestLinePlugin

/-! ## Manifest parsing (the `package.xml` loop of `main`) -/

/-- A child element of the manifest root, as distinguished by the `elif`
chain on `child.tag`; `other` covers every other tag. -/
inductive XmlChild where
  | nameTag (text : String)
  | buildDepend (text : String)
  | execDepend (text : String)
  | depend (text : String)
  | other
deriving DecidableEq

/-- The accumulator of the manifest loop: `name`, `build_depends`,
`exec_depends` and the `depends` set (a Python `set`, modelled as an
insertion-ordered duplicate-free list — only membership and size matter). -/
structure ManifestAcc where
  name : Option String
  build_depends : Nat
  exec_depends : Nat
  depends : List String
deriving DecidableEq

/-- `depends.add(text)`: insert into the set if absent. -/
def addDep (l : List String) (t : String) : List String :=
  if t ∈ l then l else l ++ [t]

/-- One iteration of `for child in tree.getroot().getchildren()`. -/
def manifestStep (acc : ManifestAcc) (c : XmlChild) : ManifestAcc :=
  match c with
  | .nameTag t => { acc with name := some t }
  | .buildDepend t =>
      { acc with build_depends := acc.build_depends + 1, depends := addDep acc.depends t }
  | .execDepend t =>
      { acc with exec_depends := acc.exec_depends + 1, depends := addDep acc.depends t }
  | .depend t =>
      { acc with build_depends := acc.build_depends + 1,
                 exec_depends := acc.exec_depends + 1,
                 depends := addDep acc.depends t }
  | .other => acc

/-- The whole manifest loop, starting from
`name = None; build_depends = 0; exec_depends = 0; depends = set()`. -/
def parseManifest (cs : List XmlChild) : ManifestAcc :=
  cs.foldl manifestStep ⟨none, 0, 0, []⟩

/-- The text of the last `name` child of the manifest, if any
(spec-side description used to state what the parsing loop computes). -/
def lastNameOf : List XmlChild → Option String
  | [] => none
  | XmlChild.nameTag t :: rest => (lastNameOf rest).or (some t)
  | _ :: rest => lastNameOf rest

/-- Occurrences of declarations that increment `build_depends`
(`build_depend` children and `depend` children, each per occurrence). -/
def countBuildDecls : List XmlChild → Nat
  | [] => 0
  | XmlChild.buildDepend _ :: rest => countBuildDecls rest + 1
  | XmlChild.depend _ :: rest => countBuildDecls rest + 1
  | _ :: rest => countBuildDecls rest

/-- Occurrences of declarations that increment `exec_depends`. -/
def countExecDecls : List XmlChild → Nat
  | [] => 0
  | XmlChild.execDepend _ :: rest => countExecDecls rest + 1
  | XmlChild.depend _ :: rest => countExecDecls rest + 1
  | _ :: rest => countExecDecls rest

/-- All dependency names declared by the manifest, with duplicates. -/
def declaredDeps : List XmlChild → List String
  | [] => []
  | XmlChild.buildDepend t :: rest => t :: declaredDeps rest
  | XmlChild.execDepend t :: rest => t :: declaredDeps rest
  | XmlChild.depend t :: rest => t :: declaredDeps rest
  | _ :: rest => declaredDeps rest

/-! ## Per-package scoring (`main`'s loop body after classification) -/

/-- Everything `main` has in hand for one package once the manifest has been
read and the files classified: the manifest children, the `CATKIN_IGNORE`
flag, and the classified file lists (interface-definition files are only
counted). -/
structure PackageInput where
  children : List XmlChild
  catkin_ignore : Bool
  cpp_files : List SrcFile
  py_files : List SrcFile
  launch_files : List SrcFile
  msg_files : Nat
deriving DecidableEq

/-- Penalty of one native file: the four C++ plugins are instantiated fresh,
fed every line, and their `finish` results summed.  (The source streams each
line through all plugins in lock-step; since each plugin's state evolves
independently of the others, folding each plugin's `line_cb` over the lines
separately computes the same final states.) -/
def cppFileScore (f : SrcFile) : Nat :=
  RosCPPFileLinePlugin.finish (RosCPPFileLinePlugin.scan f.content) f
  + RosCPPUsingTFLinePlugin.finish (RosCPPUsingTFLinePlugin.scan f.content) f
  + RosCPPUsingDynamicReconfigurePlugin.finish
      (RosCPPUsingDynamicReconfigurePlugin.scan f.content) f
  + RosCPPActionServerPlugin.finish (RosCPPActionServerPlugin.scan f.content) f

/-- Penalty of one Python file (three plugins). -/
def pyFileScore (f : SrcFile) : Nat :=
  RosPyFileLinePlugin.finish (RosPyFileLinePlugin.scan f.content) f
  + RosPyUsingTFLinePlugin.finish (RosPyUsingTFLinePlugin.scan f.content) f
  + RosPyActionServerLinePlugin.finish (RosPyActionServerLinePlugin.scan f.content) f

/-- Penalty of one launch file (single plugin). -/
def launchFileScore (f : SrcFile) : Nat :=
  RosLaunchTestLinePlugin.finish (RosLaunchTestLinePlugin.scan f.content) f

/-- `if cpp_files and py_files: score += 1` (Python list truthiness). -/
def crossLangBonus (p : PackageInput) : Nat :=
  if ¬p.cpp_files = [] ∧ ¬p.py_files = [] then 1 else 0

/-- `score += divide_round_up(len(depends), 2)`. -/
def depTerm (p : PackageInput) : Nat :=
  divide_round_up (parseManifest p.children).depends.length 2

/-- The package score without the cross-language bonus. -/
def coreScore (p : PackageInput) : Nat :=
  (p.cpp_files.foldl (fun acc f => acc + cppFileScore f) 0)
  + (p.py_files.foldl (fun acc f => acc + pyFileScore f) 0)
  + (p.launch_files.foldl (fun acc f => acc + launchFileScore f) 0)
  + depTerm p

/-- The full `score` accumulated by `main` for one package, following the
source's accumulation order (cpp files, py files, cross-language bonus,
launch files, dependency term). -/
def packageScore (p : PackageInput) : Nat :=
  (p.cpp_files.foldl (fun acc f => acc + cppFileScore f) 0)
  + (p.py_files.foldl (fun acc f => acc + pyFileScore f) 0)
  + crossLangBonus p
  + (p.launch_files.foldl (fun acc f => acc + launchFileScore f) 0)
  + depTerm p

/-- The size-bucket branch of `main`. -/
def sizeBucket (catkin_ignore : Bool) (score : Nat) : String :=
  if catkin_ignore then "S"
  else if score < 10 then "S"
  else if score < 30 then "M"
  else "L"

/-- The `"%s,%d,%d,%d,%d,%d,%d,%d,%s"` row format of `main`. -/
def formatRow (name : String) (bd ed nf nl pf pl mf : Nat) (size : String) : String :=
  name ++ "," ++ toString bd ++ "," ++ toString ed ++ "," ++ toString nf ++ ","
    ++ toString nl ++ "," ++ toString pf ++ "," ++ toString pl ++ ","
    ++ toString mf ++ "," ++ size

/-- One iteration of `main`'s package loop: parse the manifest, apply the
name/exclude/exclusive skips (in the source's order), score, bucket and
format; `none` means the package emits no row. -/
def processPackage (exclusive exclude : List String) (p : PackageInput) : Option String :=
  let m := parseManifest p.children
  match m.name with
  | none => none
  | some name =>
    if name ∈ exclude then none
    else if ¬exclusive = [] ∧ ¬name ∈ exclusive then none
    else
      some (formatRow name m.build_depends m.exec_depends
        p.cpp_files.length (p.cpp_files.map SrcFile.lines).sum
        p.py_files.length (p.py_files.map SrcFile.lines).sum
        p.msg_files
        (sizeBucket p.catkin_ignore (packageScore p)))

/-! ## Helper lemmas -/

lemma roscppFile_line_cb_true (l : List Char) :
    RosCPPFileLinePlugin.line_cb true l = true := rfl

lemma roscppFile_foldl_true (ls : List (List Char)) :
    ls.foldl RosCPPFileLinePlugin.line_cb true = true := by
  induction ls with
  | nil => rfl
  | cons l ls ih => simpa [roscppFile_line_cb_true] using ih

lemma roscppAction_line_cb_true (l : List Char) :
    RosCPPActionServerPlugin.line_cb true l = true := rfl

lemma roscppAction_foldl_true (ls : List (List Char)) :
    ls.foldl RosCPPActionServerPlugin.line_cb true = true := by
  induction ls with
  | nil => rfl
  | cons l ls ih => simpa [roscppAction_line_cb_true] using ih

lemma tf_line_cb_saturated (l : List Char) :
    RosCPPUsingTFLinePlugin.line_cb ⟨true, true⟩ l = ⟨true, true⟩ := rfl

lemma tf_foldl_saturated (ls : List (List Char)) :
    ls.foldl RosCPPUsingTFLinePlugin.line_cb ⟨true, true⟩ = ⟨true, true⟩ := by
  induction ls with
  | nil => rfl
  | cons l ls ih => simpa [tf_line_cb_saturated] using ih

lemma tf_line_cb_uses_tf (st : TFState) (l : List Char) :
    (RosCPPUsingTFLinePlugin.line_cb st l).uses_tf
      = (st.uses_tf || hasSub RosCPPUsingTFLinePlugin.tf_using_re l) := by
  rcases st with ⟨tf, tf2⟩
  unfold RosCPPUsingTFLinePlugin.line_cb
  cases tf <;> cases tf2 <;> simp <;> split_ifs <;> simp_all

lemma tf_line_cb_uses_tf2_mono (st : TFState) (l : List Char)
    (h : st.uses_tf2_ros = true) :
    (RosCPPUsingTFLinePlugin.line_cb st l).uses_tf2_ros = true := by
  unfold RosCPPUsingTFLinePlugin.line_cb
  split_ifs <;> simp_all

lemma tf_foldl_uses_tf (ls : List (List Char)) (st : TFState) :
    (ls.foldl RosCPPUsingTFLinePlugin.line_cb st).uses_tf
      = (st.uses_tf || ls.any (fun l => hasSub RosCPPUsingTFLinePlugin.tf_using_re l)) := by
  induction ls generalizing st with
  | nil => simp
  | cons l ls ih => simp [List.foldl_cons, ih, tf_line_cb_uses_tf, Bool.or_assoc]

lemma tf_scan_uses_tf (content : List (List Char)) :
    (RosCPPUsingTFLinePlugin.scan content).uses_tf
      = content.any (fun l => hasSub RosCPPUsingTFLinePlugin.tf_using_re l) := by
  simp [RosCPPUsingTFLinePlugin.scan, tf_foldl_uses_tf]

/-! ## Claims -/

/-- Claim C1: for every native-code file, the `RosCPPUsingTFLinePlugin`
finalized penalty is 2 if and only if some line of the file matches `tf::`
and no line is recorded as matching `tf2_ros::`; in every other combination
the penalty is 0. -/
theorem c1_transform_library_penalty (content : List (List Char)) (f : SrcFile) :
    (RosCPPUsingTFLinePlugin.finish (RosCPPUsingTFLinePlugin.scan content) f = 2
      ↔ ((∃ l ∈ content, hasSub RosCPPUsingTFLinePlugin.tf_using_re l = true)
          ∧ (RosCPPUsingTFLinePlugin.scan content).uses_tf2_ros = false))
    ∧ (¬((∃ l ∈ content, hasSub RosCPPUsingTFLinePlugin.tf_using_re l = true)
          ∧ (RosCPPUsingTFLinePlugin.scan content).uses_tf2_ros = false)
        → RosCPPUsingTFLinePlugin.finish (RosCPPUsingTFLinePlugin.scan content) f = 0) := by
  have htf := tf_scan_uses_tf content
  cases h1 : (RosCPPUsingTFLinePlugin.scan content).uses_tf
    <;> cases h2 : (RosCPPUsingTFLinePlugin.scan content).uses_tf2_ros
    <;> rw [h1] at htf
    <;> simp [RosCPPUsingTFLinePlugin.finish, h1, h2, List.any_eq_true] at htf ⊢
    <;> exact htf

/-- Witness for C1 at a concrete one-line file containing `tf::` only. -/
theorem c1_transform_library_penalty_witness :
    RosCPPUsingTFLinePlugin.finish
      (RosCPPUsingTFLinePlugin.scan ["tf::Transform t;".data])
      ⟨10, ["tf::Transform t;".data]⟩ = 2 :=
  (c1_transform_library_penalty ["tf::Transform t;".data]
      ⟨10, ["tf::Transform t;".data]⟩).1.mpr ⟨⟨"tf::Transform t;".data, by decide, by decide⟩, by decide⟩

/-- Claim C3: the size bucket is a pure total function of the ignore flag and
the score: ignore forces `S`; otherwise `S` below 10, `M` from 10 to 29, `L`
from 30. -/
theorem c3_size_bucket_pure (s : Nat) :
    sizeBucket true s = "S"
    ∧ (s < 10 → sizeBucket false s = "S")
    ∧ (10 ≤ s → s < 30 → sizeBucket false s = "M")
    ∧ (30 ≤ s → sizeBucket false s = "L") := by
  refine ⟨rfl, fun h => ?_, fun h h2 => ?_, fun h => ?_⟩
  · simp [sizeBucket, h]
  · have h10 : ¬s < 10 := by omega
    simp [sizeBucket, h10, h2]
  · have h10 : ¬s < 10 := by omega
    have h30 : ¬s < 30 := by omega
    simp [sizeBucket, h10, h30]

/-- Witness for C3 at the boundary scores 9, 10, 29, 30 and at
score 1000 with the ignore marker. -/
theorem c3_size_bucket_pure_witness :
    sizeBucket true 1000 = "S"
    ∧ sizeBucket false 9 = "S"
    ∧ sizeBucket false 10 = "M"
    ∧ sizeBucket false 29 = "M"
    ∧ sizeBucket false 30 = "L" :=
  ⟨(c3_size_bucket_pure 1000).1,
   (c3_size_bucket_pure 9).2.1 (by omega),
   (c3_size_bucket_pure 10).2.2.1 (by omega) (by omega),
   (c3_size_bucket_pure 29).2.2.1 (by omega) (by omega),
   (c3_size_bucket_pure 30).2.2.2 (by omega)⟩

/-- The end-to-end package of claim C4: manifest `name foo`, one `depend` on
`bar`, one native file of 500 counted lines whose single streamed line uses
the legacy namespace, no scripting or launch files. -/
def c4Package : PackageInput :=
  { children := [XmlChild.nameTag "foo", XmlChild.depend "bar"]
    catkin_ignore := false
    cpp_files := [⟨500, ["using namespace ros;".data]⟩]
    py_files := []
    launch_files := []
    msg_files := 0 }

/-- Claim C4: on the end-to-end scenario package, the native-namespace
penalty is `ceil(500/1000) = 1`, the dependency penalty is `ceil(1/2) = 1`,
the total score is 2, the bucket is Small, and the emitted row is exactly
`foo,1,1,1,500,0,0,0,S`. -/
theorem c4_end_to_end_row :
    cppFileScore ⟨500, ["using namespace ros;".data]⟩ = 1
    ∧ divide_round_up 500 1000 = 1
    ∧ depTerm c4Package = 1
    ∧ divide_round_up 1 2 = 1
    ∧ packageScore c4Package = 2
    ∧ sizeBucket false 2 = "S"
    ∧ processPackage [] [] c4Package = some "foo,1,1,1,500,0,0,0,S" := by
  decide

/-- The one-line native file content of claim C8: its only framework
reference is the modern `tf2_ros::` API. -/
def tf2OnlyLine : List Char := "tf2_ros::Buffer buffer;".data

/-- Claim C8: `ros::` matches as a raw substring inside `tf2_ros::`, so a
native file whose only framework reference is `tf2_ros::` still receives the
legacy-namespace penalty `ceil(file_lines / 1000)`, not 0 (e.g. 1 at 500
lines), even though the transform detector itself contributes 0. -/
theorem c8_tf2_line_gets_namespace_penalty (L : Nat) :
    hasSub RosCPPFileLinePlugin.roscpp_namespace_re tf2OnlyLine = true
    ∧ hasSub RosCPPUsingTFLinePlugin.tf_using_re tf2OnlyLine = false
    ∧ RosCPPFileLinePlugin.finish (RosCPPFileLinePlugin.scan [tf2OnlyLine]) ⟨L, [tf2OnlyLine]⟩
        = divide_round_up L 1000
    ∧ RosCPPUsingTFLinePlugin.finish (RosCPPUsingTFLinePlugin.scan [tf2OnlyLine]) ⟨L, [tf2OnlyLine]⟩
        = 0
    ∧ cppFileScore ⟨L, [tf2OnlyLine]⟩ = divide_round_up L 1000
    ∧ divide_round_up 500 1000 = 1 := by
  have h1 : RosCPPFileLinePlugin.scan [tf2OnlyLine] = true := by decide
  have h2 : RosCPPUsingTFLinePlugin.scan [tf2OnlyLine] = ⟨false, true⟩ := by decide
  have h3 : RosCPPUsingDynamicReconfigurePlugin.scan [tf2OnlyLine] = false := by decide
  have h4 : RosCPPActionServerPlugin.scan [tf2OnlyLine] = false := by decide
  refine ⟨by decide, by decide, ?_, ?_, ?_, by decide⟩
  · simp [h1, RosCPPFileLinePlugin.finish]
  · simp [h2, RosCPPUsingTFLinePlugin.finish]
  · simp [cppFileScore, h1, h2, h3, h4, RosCPPFileLinePlugin.finish,
      RosCPPUsingTFLinePlugin.finish, RosCPPUsingDynamicReconfigurePlugin.finish,
      RosCPPActionServerPlugin.finish]

/-! ## Manifest lemmas -/

lemma addDep_mem (l : List String) (u t : String) :
    t ∈ addDep l u ↔ t ∈ l ∨ t = u := by
  unfold addDep
  split_ifs with h
  · constructor
    · exact Or.inl
    · rintro (h2 | rfl)
      · exact h2
      · exact h
  · simp [List.mem_append]

lemma addDep_nodup (l : List String) (u : String) (h : l.Nodup) :
    (addDep l u).Nodup := by
  unfold addDep
  split_ifs with hm
  · exact h
  · simp [List.nodup_append, h, hm]

lemma addDep_self_mem (l : List String) (t : String) (h : t ∈ l) :
    addDep l t = l := by
  simp [addDep, h]

lemma manifest_foldl_build (cs : List XmlChild) (acc : ManifestAcc) :
    (cs.foldl manifestStep acc).build_depends = acc.build_depends + countBuildDecls cs := by
  induction cs generalizing acc with
  | nil => simp [countBuildDecls]
  | cons c cs ih =>
    cases c <;> simp [List.foldl_cons, manifestStep, countBuildDecls, ih] <;> omega

lemma manifest_foldl_exec (cs : List XmlChild) (acc : ManifestAcc) :
    (cs.foldl manifestStep acc).exec_depends = acc.exec_depends + countExecDecls cs := by
  induction cs generalizing acc with
  | nil => simp [countExecDecls]
  | cons c cs ih =>
    cases c <;> simp [List.foldl_cons, manifestStep, countExecDecls, ih] <;> omega

lemma manifest_foldl_depends_mem (cs : List XmlChild) (acc : ManifestAcc) (t : String) :
    t ∈ (cs.foldl manifestStep acc).depends ↔ t ∈ acc.depends ∨ t ∈ declaredDeps cs := by
  induction cs generalizing acc with
  | nil => simp [declaredDeps]
  | cons c cs ih =>
    cases c <;> simp [List.foldl_cons, manifestStep, declaredDeps, ih, addDep_mem] <;> tauto

lemma manifest_foldl_depends_nodup (cs : List XmlChild) (acc : ManifestAcc)
    (h : acc.depends.Nodup) :
    (cs.foldl manifestStep acc).depends.Nodup := by
  induction cs generalizing acc with
  | nil => exact h
  | cons c cs ih =>
    cases c with
    | nameTag t2 => exact ih _ h
    | buildDepend t2 => exact ih _ (addDep_nodup _ _ h)
    | execDepend t2 => exact ih _ (addDep_nodup _ _ h)
    | depend t2 => exact ih _ (addDep_nodup _ _ h)
    | other => exact ih _ h

lemma parseManifest_build (cs : List XmlChild) :
    (parseManifest cs).build_depends = countBuildDecls cs := by
  simpa using manifest_foldl_build cs ⟨none, 0, 0, []⟩

lemma parseManifest_exec (cs : List XmlChild) :
    (parseManifest cs).exec_depends = countExecDecls cs := by
  simpa using manifest_foldl_exec cs ⟨none, 0, 0, []⟩

lemma parseManifest_depends_mem (cs : List XmlChild) (t : String) :
    t ∈ (parseManifest cs).depends ↔ t ∈ declaredDeps cs := by
  simpa using manifest_foldl_depends_mem cs ⟨none, 0, 0, []⟩ t

lemma parseManifest_depends_nodup (cs : List XmlChild) :
    (parseManifest cs).depends.Nodup :=
  manifest_foldl_depends_nodup cs ⟨none, 0, 0, []⟩ List.nodup_nil

lemma manifest_foldl_name (cs : List XmlChild) (acc : ManifestAcc) :
    (cs.foldl manifestStep acc).name = (lastNameOf cs).or acc.name := by
  induction cs generalizing acc with
  | nil => simp [lastNameOf]
  | cons c cs ih =>
    cases c with
    | nameTag t =>
      rw [List.foldl_cons, ih]
      show (lastNameOf cs).or (some t) = ((lastNameOf cs).or (some t)).or acc.name
      cases lastNameOf cs <;> rfl
    | buildDepend t => rw [List.foldl_cons, ih]; rfl
    | execDepend t => rw [List.foldl_cons, ih]; rfl
    | depend t => rw [List.foldl_cons, ih]; rfl
    | other => rw [List.foldl_cons, ih]; rfl

/-- The two-name manifest package of claim C2. -/
def c2Package : PackageInput :=
  { children := [XmlChild.nameTag "a", XmlChild.nameTag "b"]
    catkin_ignore := false
    cpp_files := []
    py_files := []
    launch_files := []
    msg_files := 0 }

/-- Counterexample to claim C2: with two distinct `name` children `a` then
`b`, the parsed package name is the text of the LAST one (`b`), not the first
(`a`), and the emitted row starts with `b`. -/
theorem c2_first_name_counterexample :
    (parseManifest [XmlChild.nameTag "a", XmlChild.nameTag "b"]).name = some "b"
    ∧ ¬(parseManifest [XmlChild.nameTag "a", XmlChild.nameTag "b"]).name = some "a"
    ∧ processPackage [] [] c2Package = some "b,0,0,0,0,0,0,0,S" := by
  decide

/-- Claim C2 (amended): when a package manifest contains several `name`
children, the scanner takes the LAST one as the package name: for every
manifest, the parsed name equals the text of the last `name` element. -/
theorem c2_last_name_wins (cs : List XmlChild) :
    (parseManifest cs).name = lastNameOf cs := by
  unfold parseManifest
  rw [manifest_foldl_name]
  cases lastNameOf cs <;> rfl

/-- Claim C5: the dependency term of the score is exactly
`divide_round_up` of the number of unique dependency names; `divide_round_up
n 2` is the ceiling of `n / 2` (characterized by its Galois connection); the
`depends` accumulator is duplicate-free and holds exactly the declared
dependency names; and the concrete values 0, 1, 4 give 0, 1, 2. -/
theorem c5_dependency_penalty (p : PackageInput) (n k : Nat) :
    packageScore p =
      (p.cpp_files.foldl (fun acc f => acc + cppFileScore f) 0)
      + (p.py_files.foldl (fun acc f => acc + pyFileScore f) 0)
      + crossLangBonus p
      + (p.launch_files.foldl (fun acc f => acc + launchFileScore f) 0)
      + divide_round_up (parseManifest p.children).depends.length 2
    ∧ (divide_round_up n 2 ≤ k ↔ n ≤ 2 * k)
    ∧ (parseManifest p.children).depends.Nodup
    ∧ (∀ t, t ∈ (parseManifest p.children).depends ↔ t ∈ declaredDeps p.children)
    ∧ divide_round_up 0 2 = 0 ∧ divide_round_up 1 2 = 1 ∧ divide_round_up 4 2 = 2 := by
  refine ⟨rfl, ?_, parseManifest_depends_nodup p.children,
    fun t => parseManifest_depends_mem p.children t, by decide, by decide, by decide⟩
  unfold divide_round_up
  omega

/-- Witness for C5 at the concrete package of C4 and `n = 4`, `k = 2`. -/
theorem c5_dependency_penalty_witness :
    divide_round_up 4 2 ≤ 2 ∧ divide_round_up 1 2 = 1 :=
  ⟨(c5_dependency_penalty c4Package 4 2).2.1.mpr (by omega),
   (c5_dependency_penalty c4Package 4 2).2.2.2.2.2.1⟩

/-- Claim C9: `build_depends`/`exec_depends` count declaration occurrences
(each `build_depend`, `exec_depend` or `depend` child per occurrence), while
the `depends` set is deduplicated, so re-declaring an already-declared name
raises the reported counts by one but leaves the unique-dependency set — and
hence the dependency penalty — unchanged. -/
theorem c9_duplicate_dependency_counting (cs : List XmlChild) (t : String)
    (h : t ∈ (parseManifest cs).depends) :
    (parseManifest cs).build_depends = countBuildDecls cs
    ∧ (parseManifest cs).exec_depends = countExecDecls cs
    ∧ (parseManifest (cs ++ [XmlChild.buildDepend t])).build_depends
        = (parseManifest cs).build_depends + 1
    ∧ (parseManifest (cs ++ [XmlChild.buildDepend t])).exec_depends
        = (parseManifest cs).exec_depends
    ∧ (parseManifest (cs ++ [XmlChild.buildDepend t])).depends
        = (parseManifest cs).depends
    ∧ divide_round_up (parseManifest (cs ++ [XmlChild.buildDepend t])).depends.length 2
        = divide_round_up (parseManifest cs).depends.length 2 := by
  have happ : parseManifest (cs ++ [XmlChild.buildDepend t])
      = manifestStep (parseManifest cs) (XmlChild.buildDepend t) := by
    simp [parseManifest, List.foldl_append]
  have hdep : (manifestStep (parseManifest cs) (XmlChild.buildDepend t)).depends
      = (parseManifest cs).depends := by
    simp [manifestStep, addDep_self_mem _ _ h]
  refine ⟨parseManifest_build cs, parseManifest_exec cs, ?_, ?_, ?_, ?_⟩
  · rw [happ]; rfl
  · rw [happ]; rfl
  · rw [happ, hdep]
  · rw [happ, hdep]

/-- Witness for C9 at the one-`depend` manifest of the C4 scenario, with the
already-declared name `bar` re-declared as a `build_depend`. -/
theorem c9_duplicate_dependency_counting_witness :
    (parseManifest ([XmlChild.depend "bar"] ++ [XmlChild.buildDepend "bar"])).depends
      = (parseManifest [XmlChild.depend "bar"]).depends
    ∧ (parseManifest ([XmlChild.depend "bar"] ++ [XmlChild.buildDepend "bar"])).build_depends
      = (parseManifest [XmlChild.depend "bar"]).build_depends + 1 :=
  ⟨(c9_duplicate_dependency_counting [XmlChild.depend "bar"] "bar" (by decide)).2.2.2.2.1,
   (c9_duplicate_dependency_counting [XmlChild.depend "bar"] "bar" (by decide)).2.2.1⟩

/-- Claim C6: a package named in the exclude list emits no row, whatever the
allow-list holds; independently, with a non-empty allow-list a package not
named in it emits no row. -/
theorem c6_exclude_wins (exclusive exclude : List String) (p : PackageInput)
    (name : String) (hn : (parseManifest p.children).name = some name) :
    (name ∈ exclude → processPackage exclusive exclude p = none)
    ∧ (¬exclusive = [] → ¬name ∈ exclusive → processPackage exclusive exclude p = none) := by
  constructor
  · intro h
    simp [processPackage, hn, h]
  · intro h1 h2
    simp [processPackage, hn, h1, h2]

/-- The single-name package used to witness C6. -/
def c6Package : PackageInput :=
  { children := [XmlChild.nameTag "foo"]
    catkin_ignore := false
    cpp_files := []
    py_files := []
    launch_files := []
    msg_files := 0 }

/-- Witness for C6: `--exclusive foo --exclude foo` drops package `foo`. -/
theorem c6_exclude_wins_witness :
    processPackage ["foo"] ["foo"] c6Package = none :=
  (c6_exclude_wins ["foo"] ["foo"] c6Package "foo" (by decide)).1 (by decide)

/-- Claim C7: the flat +1 cross-language bonus is added to the package score
iff the package owns at least one native and at least one scripting file;
otherwise the score is exactly the bonus-free core. -/
theorem c7_cross_language_bonus (p : PackageInput) :
    (crossLangBonus p = 1 ↔ (¬p.cpp_files = [] ∧ ¬p.py_files = []))
    ∧ (¬p.cpp_files = [] → ¬p.py_files = [] → packageScore p = coreScore p + 1)
    ∧ ((p.cpp_files = [] ∨ p.py_files = []) → packageScore p = coreScore p) := by
  refine ⟨?_, ?_, ?_⟩
  · unfold crossLangBonus
    split_ifs with h <;> simp [h]
  · intro h1 h2
    unfold packageScore coreScore crossLangBonus
    rw [if_pos ⟨h1, h2⟩]
    omega
  · intro h
    unfold packageScore coreScore crossLangBonus
    rw [if_neg (by tauto)]
    omega

/-- A package owning one (empty) native file and one (empty) scripting file,
used to witness C7. -/
def mixedPackage : PackageInput :=
  { children := [XmlChild.nameTag "m"]
    catkin_ignore := false
    cpp_files := [⟨0, []⟩]
    py_files := [⟨0, []⟩]
    launch_files := []
    msg_files := 0 }

/-- Witness for C7: the mixed package gets the +1, the native-only C4 package
does not. -/
theorem c7_cross_language_bonus_witness :
    packageScore mixedPackage = coreScore mixedPackage + 1
    ∧ packageScore c4Package = coreScore c4Package :=
  ⟨(c7_cross_language_bonus mixedPackage).2.1 (by decide) (by decide),
   (c7_cross_language_bonus c4Package).2.2 (Or.inr rfl)⟩

lemma roscppDyn_line_cb_true (l : List Char) :
    RosCPPUsingDynamicReconfigurePlugin.line_cb true l = true := rfl

lemma roscppDyn_foldl_true (ls : List (List Char)) :
    ls.foldl RosCPPUsingDynamicReconfigurePlugin.line_cb true = true := by
  induction ls with
  | nil => rfl
  | cons l ls ih => simpa [roscppDyn_line_cb_true] using ih

lemma rospyFile_line_cb_true (l : List Char) :
    RosPyFileLinePlugin.line_cb true l = true := rfl

lemma rospyFile_foldl_true (ls : List (List Char)) :
    ls.foldl RosPyFileLinePlugin.line_cb true = true := by
  induction ls with
  | nil => rfl
  | cons l ls ih => simpa [rospyFile_line_cb_true] using ih

lemma rospyTF_line_cb_true (l : List Char) :
    RosPyUsingTFLinePlugin.line_cb true l = true := rfl

lemma rospyTF_foldl_true (ls : List (List Char)) :
    ls.foldl RosPyUsingTFLinePlugin.line_cb true = true := by
  induction ls with
  | nil => rfl
  | cons l ls ih => simpa [rospyTF_line_cb_true] using ih

lemma rospyAction_line_cb_true (l : List Char) :
    RosPyActionServerLinePlugin.line_cb true l = true := rfl

lemma rospyAction_foldl_true (ls : List (List Char)) :
    ls.foldl RosPyActionServerLinePlugin.line_cb true = true := by
  induction ls with
  | nil => rfl
  | cons l ls ih => simpa [rospyAction_line_cb_true] using ih

lemma launchTest_line_cb_true (l : List Char) :
    RosLaunchTestLinePlugin.line_cb true l = true := rfl

lemma launchTest_foldl_true (ls : List (List Char)) :
    ls.foldl RosLaunchTestLinePlugin.line_cb true = true := by
  induction ls with
  | nil => rfl
  | cons l ls ih => simpa [launchTest_line_cb_true] using ih

/-- Claim C10: every detector variant of the program — the four native ones,
the three scripting ones and the launch one — has monotone trigger flags (a
set flag is never cleared by a later `line_cb`), its `finish` depends only
on the final flags and the counted line total, and once all of a detector's
patterns have matched, appending further lines never changes its finalized
penalty.  One bundled conjunct per detector, each stating (flag monotonicity,
`finish` extensionality in the line count, append-invariance after
saturation). -/
theorem c10_detector_monotonicity :
    ((∀ (st : Bool) (l : List Char), st = true → RosCPPFileLinePlugin.line_cb st l = true)
      ∧ (∀ (st : Bool) (f g : SrcFile), f.lines = g.lines →
          RosCPPFileLinePlugin.finish st f = RosCPPFileLinePlugin.finish st g)
      ∧ (∀ (content extra : List (List Char)) (f : SrcFile),
          RosCPPFileLinePlugin.scan content = true →
          RosCPPFileLinePlugin.finish (RosCPPFileLinePlugin.scan (content ++ extra)) f
            = RosCPPFileLinePlugin.finish (RosCPPFileLinePlugin.scan content) f))
    ∧ ((∀ (st : TFState) (l : List Char),
          (st.uses_tf = true → (RosCPPUsingTFLinePlugin.line_cb st l).uses_tf = true)
          ∧ (st.uses_tf2_ros = true → (RosCPPUsingTFLinePlugin.line_cb st l).uses_tf2_ros = true))
      ∧ (∀ (st : TFState) (f g : SrcFile),
          RosCPPUsingTFLinePlugin.finish st f = RosCPPUsingTFLinePlugin.finish st g)
      ∧ (∀ (content extra : List (List Char)) (f : SrcFile),
          RosCPPUsingTFLinePlugin.scan content = ⟨true, true⟩ →
          RosCPPUsingTFLinePlugin.finish (RosCPPUsingTFLinePlugin.scan (content ++ extra)) f
            = RosCPPUsingTFLinePlugin.finish (RosCPPUsingTFLinePlugin.scan content) f))
    ∧ ((∀ (st : Bool) (l : List Char), st = true →
          RosCPPUsingDynamicReconfigurePlugin.line_cb st l = true)
      ∧ (∀ (st : Bool) (f g : SrcFile),
          RosCPPUsingDynamicReconfigurePlugin.finish st f
            = RosCPPUsingDynamicReconfigurePlugin.finish st g)
      ∧ (∀ (content extra : List (List Char)) (f : SrcFile),
          RosCPPUsingDynamicReconfigurePlugin.scan content = true →
          RosCPPUsingDynamicReconfigurePlugin.finish
              (RosCPPUsingDynamicReconfigurePlugin.scan (content ++ extra)) f
            = RosCPPUsingDynamicReconfigurePlugin.finish
                (RosCPPUsingDynamicReconfigurePlugin.scan content) f))
    ∧ ((∀ (st : Bool) (l : List Char), st = true → RosCPPActionServerPlugin.line_cb st l = true)
      ∧ (∀ (st : Bool) (f g : SrcFile),
          RosCPPActionServerPlugin.finish st f = RosCPPActionServerPlugin.finish st g)
      ∧ (∀ (content extra : List (List Char)) (f : SrcFile),
          RosCPPActionServerPlugin.scan content = true →
          RosCPPActionServerPlugin.finish (RosCPPActionServerPlugin.scan (content ++ extra)) f
            = RosCPPActionServerPlugin.finish (RosCPPActionServerPlugin.scan content) f))
    ∧ ((∀ (st : Bool) (l : List Char), st = true → RosPyFileLinePlugin.line_cb st l = true)
      ∧ (∀ (st : Bool) (f g : SrcFile), f.lines = g.lines →
          RosPyFileLinePlugin.finish st f = RosPyFileLinePlugin.finish st g)
      ∧ (∀ (content extra : List (List Char)) (f : SrcFile),
          RosPyFileLinePlugin.scan content = true →
          RosPyFileLinePlugin.finish (RosPyFileLinePlugin.scan (content ++ extra)) f
            = RosPyFileLinePlugin.finish (RosPyFileLinePlugin.scan content) f))
    ∧ ((∀ (st : Bool) (l : List Char), st = true → RosPyUsingTFLinePlugin.line_cb st l = true)
      ∧ (∀ (st : Bool) (f g : SrcFile),
          RosPyUsingTFLinePlugin.finish st f = RosPyUsingTFLinePlugin.finish st g)
      ∧ (∀ (content extra : List (List Char)) (f : SrcFile),
          RosPyUsingTFLinePlugin.scan content = true →
          RosPyUsingTFLinePlugin.finish (RosPyUsingTFLinePlugin.scan (content ++ extra)) f
            = RosPyUsingTFLinePlugin.finish (RosPyUsingTFLinePlugin.scan content) f))
    ∧ ((∀ (st : Bool) (l : List Char), st = true → RosPyActionServerLinePlugin.line_cb st l = true)
      ∧ (∀ (st : Bool) (f g : SrcFile),
          RosPyActionServerLinePlugin.finish st f = RosPyActionServerLinePlugin.finish st g)
      ∧ (∀ (content extra : List (List Char)) (f : SrcFile),
          RosPyActionServerLinePlugin.scan content = true →
          RosPyActionServerLinePlugin.finish (RosPyActionServerLinePlugin.scan (content ++ extra)) f
            = RosPyActionServerLinePlugin.finish (RosPyActionServerLinePlugin.scan content) f))
    ∧ ((∀ (st : Bool) (l : List Char), st = true → RosLaunchTestLinePlugin.line_cb st l = true)
      ∧ (∀ (st : Bool) (f g : SrcFile),
          RosLaunchTestLinePlugin.finish st f = RosLaunchTestLinePlugin.finish st g)
      ∧ (∀ (content extra : List (List Char)) (f : SrcFile),
          RosLaunchTestLinePlugin.scan content = true →
          RosLaunchTestLinePlugin.finish (RosLaunchTestLinePlugin.scan (content ++ extra)) f
            = RosLaunchTestLinePlugin.finish (RosLaunchTestLinePlugin.scan content) f)) := by
  refine ⟨⟨?_, ?_, ?_⟩, ⟨?_, ?_, ?_⟩, ⟨?_, ?_, ?_⟩, ⟨?_, ?_, ?_⟩,
    ⟨?_, ?_, ?_⟩, ⟨?_, ?_, ?_⟩, ⟨?_, ?_, ?_⟩, ⟨?_, ?_, ?_⟩⟩
  · intro st l h
    subst h
    exact roscppFile_line_cb_true l
  · intro st f g h
    simp [RosCPPFileLinePlugin.finish, h]
  · intro content extra f h
    have hsat : RosCPPFileLinePlugin.scan (content ++ extra) = true := by
      unfold RosCPPFileLinePlugin.scan at h ⊢
      rw [List.foldl_append, h]
      exact roscppFile_foldl_true extra
    rw [hsat, h]
  · intro st l
    constructor
    · intro h
      rw [tf_line_cb_uses_tf, h, Bool.true_or]
    · exact tf_line_cb_uses_tf2_mono st l
  · intro st f g
    rfl
  · intro content extra f h
    have hsat : RosCPPUsingTFLinePlugin.scan (content ++ extra) = ⟨true, true⟩ := by
      unfold RosCPPUsingTFLinePlugin.scan at h ⊢
      rw [List.foldl_append, h]
      exact tf_foldl_saturated extra
    rw [hsat, h]
  · intro st l h
    subst h
    exact roscppDyn_line_cb_true l
  · intro st f g
    rfl
  · intro content extra f h
    have hsat : RosCPPUsingDynamicReconfigurePlugin.scan (content ++ extra) = true := by
      unfold RosCPPUsingDynamicReconfigurePlugin.scan at h ⊢
      rw [List.foldl_append, h]
      exact roscppDyn_foldl_true extra
    rw [hsat, h]
  · intro st l h
    subst h
    exact roscppAction_line_cb_true l
  · intro st f g
    rfl
  · intro content extra f h
    have hsat : RosCPPActionServerPlugin.scan (content ++ extra) = true := by
      unfold RosCPPActionServerPlugin.scan at h ⊢
      rw [List.foldl_append, h]
      exact roscppAction_foldl_true extra
    rw [hsat, h]
  · intro st l h
    subst h
    exact rospyFile_line_cb_true l
  · intro st f g h
    simp [RosPyFileLinePlugin.finish, h]
  · intro content extra f h
    have hsat : RosPyFileLinePlugin.scan (content ++ extra) = true := by
      unfold RosPyFileLinePlugin.scan at h ⊢
      rw [List.foldl_append, h]
      exact rospyFile_foldl_true extra
    rw [hsat, h]
  · intro st l h
    subst h
    exact rospyTF_line_cb_true l
  · intro st f g
    rfl
  · intro content extra f h
    have hsat : RosPyUsingTFLinePlugin.scan (content ++ extra) = true := by
      unfold RosPyUsingTFLinePlugin.scan at h ⊢
      rw [List.foldl_append, h]
      exact rospyTF_foldl_true extra
    rw [hsat, h]
  · intro st l h
    subst h
    exact rospyAction_line_cb_true l
  · intro st f g
    rfl
  · intro content extra f h
    have hsat : RosPyActionServerLinePlugin.scan (content ++ extra) = true := by
      unfold RosPyActionServerLinePlugin.scan at h ⊢
      rw [List.foldl_append, h]
      exact rospyAction_foldl_true extra
    rw [hsat, h]
  · intro st l h
    subst h
    exact launchTest_line_cb_true l
  · intro st f g
    rfl
  · intro content extra f h
    have hsat : RosLaunchTestLinePlugin.scan (content ++ extra) = true := by
      unfold RosLaunchTestLinePlugin.scan at h ⊢
      rw [List.foldl_append, h]
      exact launchTest_foldl_true extra
    rw [hsat, h]

/-- Witness for C10 at concrete states, lines and file contents: a native
namespace file, a scripting `rospy` file and a launch `<test>` file each keep
their penalty after an extra appended line. -/
theorem c10_detector_monotonicity_witness :
    RosCPPFileLinePlugin.line_cb true "int x;".data = true
    ∧ RosCPPFileLinePlugin.finish
        (RosCPPFileLinePlugin.scan (["using namespace ros;".data] ++ ["int y;".data]))
        ⟨500, ["using namespace ros;".data, "int y;".data]⟩
      = RosCPPFileLinePlugin.finish (RosCPPFileLinePlugin.scan ["using namespace ros;".data])
          ⟨500, ["using namespace ros;".data, "int y;".data]⟩
    ∧ RosPyFileLinePlugin.finish
        (RosPyFileLinePlugin.scan (["import rospy".data] ++ ["x = 1".data]))
        ⟨500, ["import rospy".data, "x = 1".data]⟩
      = RosPyFileLinePlugin.finish (RosPyFileLinePlugin.scan ["import rospy".data])
          ⟨500, ["import rospy".data, "x = 1".data]⟩
    ∧ RosLaunchTestLinePlugin.finish
        (RosLaunchTestLinePlugin.scan (["<Test name=a>".data] ++ ["</Test>".data]))
        ⟨3, ["<Test name=a>".data, "</Test>".data]⟩
      = RosLaunchTestLinePlugin.finish (RosLaunchTestLinePlugin.scan ["<Test name=a>".data])
          ⟨3, ["<Test name=a>".data, "</Test>".data]⟩ :=
  ⟨c10_detector_monotonicity.1.1 true "int x;".data rfl,
   c10_detector_monotonicity.1.2.2 ["using namespace ros;".data] ["int y;".data]
     ⟨500, ["using namespace ros;".data, "int y;".data]⟩ (by decide),
   c10_detector_monotonicity.2.2.2.2.1.2.2 ["import rospy".data] ["x = 1".data]
     ⟨500, ["import rospy".data, "x = 1".data]⟩ (by decide),
   c10_detector_monotonicity.2.2.2.2.2.2.2.2.2 ["<Test name=a>".data] ["</Test>".data]
     ⟨3, ["<Test name=a>".data, "</Test>".data]⟩ (by decide)⟩

end RosPort
